import Mathlib

set_option maxHeartbeats 1000000

/- Shallow embedding of the two scrapers of this repository:
   src/imdb_scraper.py and src/shopcules_scraper.py.

   Markup fragments are modelled at the selector level: each selector
   lookup either finds a node, whose stripped text we store, or does
   not (`Option String`, `none` = selector found nothing).  Network
   fetches are modelled as oracle inputs: an `Option`/sum value says
   whether the request raised (`requests.exceptions.RequestException`,
   including the `raise_for_status` path) and otherwise carries the
   fetched page, itself already modelled at the selector level.
   A Python review dict is modelled as the association list it is,
   in insertion order. -/

/-- A review record: a Python dict from field names to string values,
kept in insertion order. -/
abbrev Record : Type := List (String × String)

namespace ImdbScraper

/-- Outcome of the secondary per-review full-text fetch
(imdb_scraper.py lines 161-184): `err` models any exception raised
inside the inner `try` (timeout, connection failure, ...); `page e`
models a fetched full-review page on which the three fallback
selectors for the review text resolved to `e` (`none` = none of the
three selectors found a node). -/
inductive SecondaryFetch
| err : SecondaryFetch
| page : Option String → SecondaryFetch
deriving DecidableEq

/-- The `div[data-testid="reviews-author"]` subtree of one review card
(imdb_scraper.py lines 137-159): text of the `a[data-testid=author-link]`
node, text of the `li.review-date` node, and the `href` attribute of the
`a[data-testid=permalink-link]` node (`none` when the node is absent or
has no `href`). -/
structure AuthorData where
  authorLink : Option String
  reviewDate : Option String
  permalink : Option String
deriving DecidableEq

/-- One review card (`article.user-review-item`), at the selector level
(imdb_scraper.py lines 111-159).  `ratingStar` is the
`span.ipc-rating-star` lookup; when that node is present, the inner
value is the `span.ipc-rating-star--rating` lookup inside it.
`title` is the text of the `h3.ipc-title__text` node after the code's
svg-stripping and re-parse (lines 126-131).  `author` is the
`div[data-testid="reviews-author"]` lookup. -/
structure IMDBFragData where
  ratingStar : Option (Option String)
  title : Option String
  author : Option AuthorData
deriving DecidableEq

/-- A fragment handed to the per-review loop body: either a well-formed
card, or a subtree so malformed that processing it raises, which the
`except` at imdb_scraper.py lines 192-194 turns into a logged skip. -/
inductive IMDBFragment
| malformed : IMDBFragment
| ok : IMDBFragData → IMDBFragment
deriving DecidableEq

/-- imdb_scraper.py lines 117-122: rating from the nested rating spans,
sentinel "N/A" when either span is missing. -/
def ratingValue (d : IMDBFragData) : String :=
  match d.ratingStar with
  | some (some v) => v
  | some none => "N/A"
  | none => "N/A"

/-- imdb_scraper.py lines 126-133: review title, sentinel "No Title". -/
def titleValue (d : IMDBFragData) : String :=
  match d.title with
  | some t => t
  | none => "No Title"

/-- imdb_scraper.py lines 137-147: reviewer name, sentinel "Anonymous"
when the author section or the author link is missing. -/
def reviewerValue (d : IMDBFragData) : String :=
  match d.author with
  | some a =>
    match a.authorLink with
    | some nm => nm
    | none => "Anonymous"
  | none => "Anonymous"

/-- imdb_scraper.py lines 142-147: review date, sentinel "Unknown date"
when the author section or the date node is missing. -/
def dateValue (d : IMDBFragData) : String :=
  match d.author with
  | some a =>
    match a.reviewDate with
    | some dt => dt
    | none => "Unknown date"
  | none => "Unknown date"

/-- imdb_scraper.py lines 152-159: the permalink is only looked up
inside the author section, and only counts when the link has an
`href`. -/
def permalinkOf (d : IMDBFragData) : Option String :=
  match d.author with
  | some a => a.permalink
  | none => none

/-- imdb_scraper.py lines 161-186: the review body.  With a permalink,
the secondary fetch decides the value: an exception gives the sentinel
"Error fetching full review", a page without a recognisable text node
gives "Review text not available", otherwise the node's text.  Without
a permalink the sentinel "No permalink available to fetch full review"
is used. -/
def textValue (oracle : String → SecondaryFetch) (d : IMDBFragData) : String :=
  match permalinkOf d with
  | some p =>
    match oracle p with
    | SecondaryFetch.err => "Error fetching full review"
    | SecondaryFetch.page none => "Review text not available"
    | SecondaryFetch.page (some t) => t
  | none => "No permalink available to fetch full review"

/-- The body of the per-review loop, imdb_scraper.py lines 111-194:
build the `review_data` dict field by field (insertion order: rating,
title, reviewer, date, text) and append it; a fragment whose
processing raises is skipped (`none`). -/
def extract_review (oracle : String → SecondaryFetch) : IMDBFragment → Option Record
  | IMDBFragment.malformed => none
  | IMDBFragment.ok d =>
    some [ ("rating", ratingValue d), ("title", titleValue d),
           ("reviewer", reviewerValue d), ("date", dateValue d),
           ("text", textValue oracle d) ]

/-- Matcher for the regex `tt\d+` anchored at the head of the list:
two literal `t`s followed by a greedy, non-empty run of digits
(imdb_scraper.py line 16). -/
def ttMatchAt : List Char → Option (List Char)
  | c1 :: c2 :: rest =>
    if c1 = 't' ∧ c2 = 't' then
      (if rest.takeWhile Char.isDigit = [] then none
       else some ('t' :: 't' :: rest.takeWhile Char.isDigit))
    else none
  | _ => none

/-- `re.search(r'(tt\d+)', s)`: the leftmost position where `tt\d+`
matches, with a greedy digit run (imdb_scraper.py line 16). -/
def ttSearch : List Char → Option (List Char)
  | [] => none
  | c :: rest =>
    match ttMatchAt (c :: rest) with
    | some m => some m
    | none => ttSearch rest

/-- `movie_url.startswith('tt')` (imdb_scraper.py line 12). -/
def startsWithTT (l : List Char) : Bool :=
  match l with
  | c1 :: c2 :: _ => c1 == 't' && c2 == 't'
  | _ => false

/-- imdb_scraper.py lines 10-20, on the character list of the input:
return the input unchanged when it starts with "tt", otherwise the
leftmost `tt\d+` match, otherwise raise `ValueError`. -/
def get_movie_id_chars (l : List Char) : Except String (List Char) :=
  if startsWithTT l then Except.ok l
  else
    match ttSearch l with
    | some m => Except.ok m
    | none =>
      Except.error "Invalid IMDb URL or ID. Please provide a valid IMDb movie URL or ID."

/-- imdb_scraper.py `get_movie_id` (lines 10-20). -/
def get_movie_id (s : String) : Except String String :=
  match get_movie_id_chars s.data with
  | Except.ok l => Except.ok ⟨ l ⟩
  | Except.error e => Except.error e

/-- The fixed reviews endpoint built from the canonical id
(imdb_scraper.py line 70). -/
def reviews_url (movie_id : String) : String :=
  "https://www.imdb.com/title/" ++ movie_id ++ "/reviews"

/-- `(tt\d+)` occurs somewhere in the list: the pattern the regex
search succeeds on. -/
def ttOccurs (l : List Char) : Prop :=
  ∃ p d q, l = p ++ 't' :: 't' :: (d ++ q) ∧ d ≠ [] ∧ ∀ c ∈ d, c.isDigit = true

/-- One reviews page, at the selector level (imdb_scraper.py
lines 94-207).  `primary` is the `article.user-review-item` batch,
`alt` the fallback `div.ipc-list-card--border-speech` batch
(lines 98-107).  `loadMoreKey` is the `data-key` attribute of the
`div.load-more-data` node (`none`: node absent or attribute absent);
`buttonKey` is the `data-key` of the parent of the "Load More" button
(lines 196-207). -/
structure IMDBPage where
  primary : List IMDBFragment
  alt : List IMDBFragment
  loadMoreKey : Option String
  buttonKey : Option String

/-- Lines 100-107: use the primary containers, falling back to the
alternative selector when the primary list is empty. -/
def containersOf (pg : IMDBPage) : List IMDBFragment :=
  if pg.primary = [] then pg.alt else pg.primary

/-- Lines 197-207: the pagination key of a page, trying the
`load-more-data` div first and the button parent second. -/
def pageKey (pg : IMDBPage) : Option String :=
  match pg.loadMoreKey with
  | some k => some k
  | none => pg.buttonKey

/-- Python truthiness of the pagination key: `None` and the empty
string are both falsy (`elif pagination_key:` at line 79 and
`if not pagination_key:` at line 209). -/
def keyTruthy : Option String → Option String
  | none => none
  | some k => if k = "" then none else some k

/-- Outcome of the title-page fetch performed by `get_movie_title`
(imdb_scraper.py lines 22-43).  `err` models a raised `requests.get`
exception at line 30 — that call sits in NO try/except, so the
exception propagates out of `get_movie_title` and out of
`scrape_reviews`.  `page status elem` models a received response with
its HTTP status code and the result of the three fallback title
selectors (line 35); `elem` stores the element text after the code's
stripping and `(YYYY)` year-pattern removal (lines 38-41), `none` =
no selector matched. -/
inductive TitleFetch
| err : TitleFetch
| page : Nat → Option String → TitleFetch
deriving DecidableEq

/-- imdb_scraper.py `get_movie_title` (lines 22-43): a raised request
propagates (the `Except.error` case); on a 200 response with a
matched title element the cleaned title text is returned; on any
other received response, or when no selector matches, the movie id
itself is returned (line 43). -/
def get_movie_title (movie_id : String) (tf : TitleFetch) : Except String String :=
  match tf with
  | TitleFetch.err => Except.error "RequestException in get_movie_title"
  | TitleFetch.page status elem =>
    if status = 200 then
      match elem with
      | some t => Except.ok t
      | none => Except.ok movie_id
    else Except.ok movie_id

/-- The IMDb site as `scrape_reviews` observes it: the title-page
fetch done by `get_movie_title`, the first reviews page (`none` = the
fetch at line 88 raised, including non-2xx statuses turned into
exceptions by `raise_for_status`), the continuation page reached from
a pagination key, and the per-permalink secondary fetch. -/
structure IMDBSite where
  first : Option IMDBPage
  next : String → Option IMDBPage
  secondary : String → SecondaryFetch
  titleFetch : TitleFetch

/-- Why the crawl loop stopped.  `budget`: the `while pages_scraped <
max_pages` guard failed.  `noKeyAtTop`: the `else: break` at line 82.
`netErr`: the fetch raised (lines 87-92).  `noContainers`: both
container selectors returned an empty batch (lines 100-107).  `noKey`:
no truthy pagination key after processing the page (lines 209-211). -/
inductive StopReason
| budget | noKeyAtTop | netErr | noContainers | noKey
deriving DecidableEq

/-- Result of the crawl loop: accumulated records, the final value of
`pages_scraped`, and why the loop stopped. -/
structure ScrapeOut where
  records : List Record
  pages : Nat
  reason : StopReason
deriving DecidableEq

/-- The crawl loop of imdb_scraper.py lines 75-217.  `fuel` is the
remaining page budget `max_pages - pages_scraped` (the loop guard),
`n` the current `pages_scraped`, `key` the current `pagination_key`,
`acc` the `reviews` list.  Each iteration: pick the url (first page
when `n = 0`, the ajax continuation when the key is truthy, otherwise
break), count the page, fetch (an exception is a soft stop), select
the containers (an empty batch is a stop), extract the batch with the
per-fragment `try/except` (a `filterMap`), then look for the next key
(a falsy key is a stop). -/
def scrapeGo (site : IMDBSite) : Nat → Nat → Option String → List Record → ScrapeOut
  | 0, n, _, acc => ⟨ acc, n, StopReason.budget ⟩
  | fuel+1, n, key, acc =>
    match (if n = 0 then some site.first else (keyTruthy key).map site.next) with
    | none => ⟨ acc, n, StopReason.noKeyAtTop ⟩
    | some none => ⟨ acc, n + 1, StopReason.netErr ⟩
    | some (some pg) =>
      match containersOf pg with
      | [] => ⟨ acc, n + 1, StopReason.noContainers ⟩
      | c :: cs =>
        match keyTruthy (pageKey pg) with
        | none =>
          ⟨ acc ++ (c :: cs).filterMap (extract_review site.secondary), n + 1,
            StopReason.noKey ⟩
        | some k =>
          scrapeGo site fuel (n + 1) (some k)
            (acc ++ (c :: cs).filterMap (extract_review site.secondary))

/-- imdb_scraper.py `scrape_reviews` (lines 45-220): resolve the
subject eagerly (a `ValueError` from `get_movie_id` propagates to the
caller before any page is requested, line 57), then fetch the movie
title (line 66) — `get_movie_title`'s request is not wrapped in any
`try`, so a network exception raised there also propagates to the
caller — then run the crawl loop from `pages_scraped = 0` with no
pagination key and an empty `reviews` list, and return the reviews
together with the movie title. -/
def scrape_reviews (site : IMDBSite) (movie_id_or_url : String) (max_pages : Nat) :
    Except String (ScrapeOut × String) :=
  match get_movie_id movie_id_or_url with
  | Except.error e => Except.error e
  | Except.ok movie_id =>
    match get_movie_title movie_id site.titleFetch with
    | Except.error e => Except.error e
    | Except.ok movie_title =>
      Except.ok (scrapeGo site max_pages 0 none [], movie_title)

/-- What the CLI prints at the end of `main`. -/
inductive CliOutcome
| successSummary : Nat → CliOutcome
| noRecords : CliOutcome
| errorMessage : CliOutcome
deriving DecidableEq

/-- imdb_scraper.py `main` (lines 239-266): run `scrape_reviews`
inside a `try` that catches every exception; report a success summary
when at least one review was collected, the "No reviews were found"
notice when zero were, and the "An error occurred" message when an
exception was raised — the invalid-subject `ValueError`, or a network
exception propagated from the uncaught title-page fetch.  The
function never calls `sys.exit`, so the process exit code is 0 on
every path; the pair's first component is that exit code. -/
def main (site : IMDBSite) (movie_id : String) (max_pages : Nat) : Nat × CliOutcome :=
  match scrape_reviews site movie_id max_pages with
  | Except.error _ => (0, CliOutcome.errorMessage)
  | Except.ok (out, _) =>
    if out.records = [] then (0, CliOutcome.noRecords)
    else (0, CliOutcome.successSummary out.records.length)

end ImdbScraper

namespace ShopCluesScraper

/-- One review item (`div.rnr_lists ul li`), at the selector level
(shopcules_scraper.py lines 89-105): the stripped texts of the
`div.prd_ratings span`, `div.r_by`, `div.r_date`, `div.use_type` and
`div.review_desc p` lookups (`none` = node absent). -/
structure ShopReviewData where
  rating : Option String
  reviewer : Option String
  date : Option String
  verified : Option String
  content : Option String
deriving DecidableEq

/-- A fragment handed to the per-review loop body: either a well-formed
item, or a subtree so malformed that processing it raises, which the
`except` at shopcules_scraper.py lines 125-127 turns into a logged
skip. -/
inductive ShopFragment
| malformed : ShopFragment
| ok : ShopReviewData → ShopFragment
deriving DecidableEq

/-- Head of the list is the literal `<!--`. -/
def startsHtmlComment : List Char → Bool
  | '<' :: '!' :: '-' :: '-' :: _ => true
  | _ => false

/-- The characters before the first occurrence of `<!--`; `none` when
the marker does not occur (that is, `'<!--' in s` is false). -/
def beforeComment : List Char → Option (List Char)
  | [] => none
  | c :: rest =>
    if startsHtmlComment (c :: rest) then some []
    else
      match beforeComment rest with
      | some pre => some (c :: pre)
      | none => none

/-- Python `str.strip()`: drop leading and trailing whitespace. -/
def stripChars (l : List Char) : List Char :=
  ((l.dropWhile Char.isWhitespace).reverse.dropWhile Char.isWhitespace).reverse

/-- shopcules_scraper.py lines 107-113: when the text contains an
embedded `<!--` marker, keep only the part before it, stripped;
otherwise the text is left untouched. -/
def cleanComment (s : String) : String :=
  match beforeComment s.data with
  | some pre => ⟨ stripChars pre ⟩
  | none => s

/-- Lines 92-93: rating, sentinel "N/A". -/
def shopRating (d : ShopReviewData) : String :=
  match d.rating with
  | some v => v
  | none => "N/A"

/-- Lines 95-96 and 107-109: reviewer name, sentinel "Anonymous",
then the comment-marker cleanup. -/
def shopReviewer (d : ShopReviewData) : String :=
  cleanComment (match d.reviewer with | some v => v | none => "Anonymous")

/-- Lines 98-99: review date, whose sentinel is the empty string. -/
def shopDate (d : ShopReviewData) : String :=
  match d.date with
  | some v => v
  | none => ""

/-- Lines 101-102: verified status, sentinel "N/A". -/
def shopVerified (d : ShopReviewData) : String :=
  match d.verified with
  | some v => v
  | none => "N/A"

/-- Lines 104-105 and 111-113: review body, sentinel "No content",
then the comment-marker cleanup. -/
def shopContent (d : ShopReviewData) : String :=
  cleanComment (match d.content with | some v => v | none => "No content")

/-- The body of the per-review loop, shopcules_scraper.py
lines 89-127: build the `review_data` dict (insertion order:
reviewer_name, rating, date, verified_status, review_content) and
append it; a fragment whose processing raises is skipped (`none`). -/
def parseReviewItem : ShopFragment → Option Record
  | ShopFragment.malformed => none
  | ShopFragment.ok d =>
    some [ ("reviewer_name", shopReviewer d), ("rating", shopRating d),
           ("date", shopDate d), ("verified_status", shopVerified d),
           ("review_content", shopContent d) ]

/-- shopcules_scraper.py `parse_reviews` (lines 81-129): extract every
item of the page, skipping the ones whose processing raises. -/
def parse_reviews (items : List ShopFragment) : List Record :=
  items.filterMap parseReviewItem

/-- One AJAX response of the counter-based loop (shopcules_scraper.py
lines 164-175): the HTTP status code and the `html` member of the JSON
payload.  `html = none` models a missing or empty `data.get('html')`
(the check at line 170 treats both alike); otherwise the payload is
the review-item list its HTML parses to. -/
structure AjaxResponse where
  status : Nat
  html : Option (List ShopFragment)
deriving DecidableEq

/-- Result of the counter-based loop: accumulated records, the list of
counter values requested from the AJAX endpoint, and whether the loop
has terminated (`false` only when the step bound of the model ran out
while the code's `while True` loop would still be running). -/
structure FetchAllOut where
  records : List Record
  reqs : List Nat
  finished : Bool
deriving DecidableEq

/-- The `while True` loop of shopcules_scraper.py lines 158-188.
`stream n` is the response to the AJAX request with `page=n` (`none`:
`requests.get` or `response.json()` raised, which the `except` at
lines 186-188 turns into a break; merging the two raise points is
behaviour-preserving because both lead to the same break).  Each
iteration increments the counter, requests it, and breaks on a raised
exception, a status other than 200, a missing or empty `html`
payload, or an empty extracted batch; otherwise it extends the
accumulator and continues.  `fuel` only bounds the model's unrolling:
the code itself has no page budget. -/
def fetchAllGo (stream : Nat → Option AjaxResponse) :
    Nat → Nat → List Record → List Nat → FetchAllOut
  | 0, _, acc, reqs => ⟨ acc, reqs, false ⟩
  | fuel+1, page, acc, reqs =>
    match stream (page + 1) with
    | none => ⟨ acc, reqs ++ [page + 1], true ⟩
    | some r =>
      if r.status ≠ 200 then ⟨ acc, reqs ++ [page + 1], true ⟩
      else
        match r.html with
        | none => ⟨ acc, reqs ++ [page + 1], true ⟩
        | some doc =>
          if parse_reviews doc = [] then ⟨ acc, reqs ++ [page + 1], true ⟩
          else fetchAllGo stream fuel (page + 1) (acc ++ parse_reviews doc) (reqs ++ [page + 1])

/-- The product page as `fetch_all_reviews` observes it: the review
items it contains and whether the `div.load_more a#moreReview`
affordance is present (shopcules_scraper.py lines 142-152). -/
structure ShopDoc where
  items : List ShopFragment
  loadMore : Bool
deriving DecidableEq

/-- The ShopClues site as `fetch_all_reviews` observes it.  `hasUrl`
models `self.url` being set; `firstFetch` the `fetch_page` result
(`none`: the request raised, including non-2xx via
`raise_for_status`, lines 19-27); `productId` the result of the
`(\d+)\.html` regex search on the url (line 154); `ajax` the
counter-indexed AJAX responses. -/
structure ShopSite where
  hasUrl : Bool
  firstFetch : Option ShopDoc
  productId : Option String
  ajax : Nat → Option AjaxResponse

/-- shopcules_scraper.py `fetch_all_reviews` (lines 131-191): give up
with an empty list when no url is set or the first fetch fails; parse
the first page's reviews; when the load-more affordance is present and
the url yields a product id, run the AJAX loop seeded with the
first page's records and `page = 1` (so the first requested counter
is 2). -/
def fetch_all_reviews (site : ShopSite) (fuel : Nat) : FetchAllOut :=
  if site.hasUrl then
    match site.firstFetch with
    | none => ⟨ [], [], true ⟩
    | some doc =>
      if doc.loadMore then
        match site.productId with
        | some _ => fetchAllGo site.ajax fuel 1 (parse_reviews doc.items) []
        | none => ⟨ parse_reviews doc.items, [], true ⟩
      else ⟨ parse_reviews doc.items, [], true ⟩
  else ⟨ [], [], true ⟩

/-- Modelled from the spec's words, for comparison with the code: the
exhaustion condition of the counter-based protocol — "an empty or
missing HTML payload, a non-success status code, or an empty
extracted-record batch". -/
def specExhaustion (r : AjaxResponse) : Bool :=
  decide (r.status ≠ 200) ||
    (match r.html with
     | none => true
     | some doc => decide (parse_reviews doc = []))

/-- A response on which the counter-based loop continues: received,
status 200, non-empty payload, non-empty extracted batch. -/
def GoodAjax (o : Option AjaxResponse) : Prop :=
  ∃ r, o = some r ∧ r.status = 200 ∧ ∃ doc, r.html = some doc ∧ parse_reviews doc ≠ []

end ShopCluesScraper

/- Concrete fixtures used to evaluate the models on closed inputs. -/

/-- An IMDb site whose very first page fetch raises; the title-page
fetch returns a 200 response without a title element, so the title
falls back to the movie id. -/
def siteEmpty : ImdbScraper.IMDBSite :=
  ⟨ none, fun _ => none, fun _ => ImdbScraper.SecondaryFetch.err,
    ImdbScraper.TitleFetch.page 200 none ⟩

/-- An IMDb site whose title-page fetch raises. -/
def siteTitleRaise : ImdbScraper.IMDBSite :=
  ⟨ none, fun _ => none, fun _ => ImdbScraper.SecondaryFetch.err,
    ImdbScraper.TitleFetch.err ⟩

/-- A review card on which every selector fails. -/
def d0 : ImdbScraper.IMDBFragData := ⟨ none, none, none ⟩

/-- A secondary-fetch oracle that always raises. -/
def oracle0 : String → ImdbScraper.SecondaryFetch :=
  fun _ => ImdbScraper.SecondaryFetch.err

/-- A secondary-fetch oracle that always yields a review text. -/
def oracleText : String → ImdbScraper.SecondaryFetch :=
  fun _ => ImdbScraper.SecondaryFetch.page (some "Great movie")

/-- A review card carrying (only) a permalink. -/
def dPerm : ImdbScraper.IMDBFragData :=
  ⟨ none, none, some ⟨ none, none, some "/review/rw1/" ⟩ ⟩

/-- The record extracted from `d0`: every field at its sentinel. -/
def rec0 : Record :=
  [ ("rating", "N/A"), ("title", "No Title"), ("reviewer", "Anonymous"),
    ("date", "Unknown date"), ("text", "No permalink available to fetch full review") ]

/-- A ShopClues review item on which every selector fails. -/
def sd0 : ShopCluesScraper.ShopReviewData := ⟨ none, none, none, none, none ⟩

/-- The record extracted from `sd0`: every field at its sentinel. -/
def srec0 : Record :=
  [ ("reviewer_name", "Anonymous"), ("rating", "N/A"), ("date", ""),
    ("verified_status", "N/A"), ("review_content", "No content") ]

/-- An AJAX response the counter-based loop continues on. -/
def goodResp : ShopCluesScraper.AjaxResponse :=
  ⟨ 200, some [ ShopCluesScraper.ShopFragment.ok sd0 ] ⟩

/-- An AJAX stream on which every request succeeds with a non-empty
batch: the counter-based loop never stops on it. -/
def allGoodStream : Nat → Option ShopCluesScraper.AjaxResponse :=
  fun _ => some goodResp

/-- A ShopClues site whose AJAX endpoint always has more reviews. -/
def shopSiteAllGood : ShopCluesScraper.ShopSite :=
  ⟨ true, some ⟨ [ ShopCluesScraper.ShopFragment.ok sd0 ], true ⟩, some "123456",
    allGoodStream ⟩

/-- An AJAX stream on which every request raises. -/
def errStream : Nat → Option ShopCluesScraper.AjaxResponse :=
  fun _ => none

/-- A ShopClues site with one good AJAX page (counter 2) and an empty
batch at counter 3. -/
def shopSiteTwoPages : ShopCluesScraper.ShopSite :=
  ⟨ true, some ⟨ [ ShopCluesScraper.ShopFragment.ok sd0 ], true ⟩, some "123456",
    fun n => if n = 2 then some goodResp else some ⟨ 200, some [] ⟩ ⟩


/- Helper lemmas shared by several claims. -/

/-- A list whose every element is mapped to `some` keeps its length
under `filterMap`. -/
theorem filterMap_length_all_some {α β : Type} (f : α → Option β) :
    ∀ (l : List α), (∀ a ∈ l, (f a).isSome) → (l.filterMap f).length = l.length := by
  intro l
  induction l with
  | nil => intro _; rfl
  | cons a t ih =>
    intro h
    have ha := h a (List.mem_cons_self a t)
    obtain ⟨ b, hb ⟩ := Option.isSome_iff_exists.mp ha
    simp [List.filterMap_cons, hb, ih fun x hx => h x (List.mem_cons_of_mem a hx)]

/-- C2: for every fragment, extraction never raises past the extractor
and always yields a record with exactly the fixed field set (in the
dict's insertion order); a field whose selectors all fail is bound to
its declared sentinel ("N/A", "No Title", "Anonymous", "Unknown date"
and the no-permalink body sentinel on the IMDb side; "Anonymous",
"N/A", the empty string, "N/A", "No content" on the ShopClues side),
never an absent key; and every record a batch exposes is fully
populated. -/
theorem c2_sentinel_fields
    (d : ImdbScraper.IMDBFragData) (oracle : String → ImdbScraper.SecondaryFetch)
    (sd : ShopCluesScraper.ShopReviewData) (page : List ShopCluesScraper.ShopFragment)
    (r s : Record)
    (hr : ImdbScraper.extract_review oracle (ImdbScraper.IMDBFragment.ok d) = some r)
    (hs : ShopCluesScraper.parseReviewItem (ShopCluesScraper.ShopFragment.ok sd) = some s) :
    (r.map Prod.fst = [ "rating", "title", "reviewer", "date", "text" ]
      ∧ (d.ratingStar = none → List.lookup "rating" r = some "N/A")
      ∧ (d.ratingStar = some none → List.lookup "rating" r = some "N/A")
      ∧ (d.title = none → List.lookup "title" r = some "No Title")
      ∧ (d.author = none →
          List.lookup "reviewer" r = some "Anonymous"
          ∧ List.lookup "date" r = some "Unknown date"
          ∧ List.lookup "text" r = some "No permalink available to fetch full review"))
    ∧ (s.map Prod.fst = [ "reviewer_name", "rating", "date", "verified_status",
          "review_content" ]
      ∧ (sd.rating = none → List.lookup "rating" s = some "N/A")
      ∧ (sd.reviewer = none → List.lookup "reviewer_name" s = some "Anonymous")
      ∧ (sd.date = none → List.lookup "date" s = some "")
      ∧ (sd.verified = none → List.lookup "verified_status" s = some "N/A")
      ∧ (sd.content = none → List.lookup "review_content" s = some "No content"))
    ∧ (∀ rec ∈ ShopCluesScraper.parse_reviews page,
        rec.map Prod.fst = [ "reviewer_name", "rating", "date", "verified_status",
          "review_content" ]) := by
  simp only [ImdbScraper.extract_review] at hr
  replace hr := Option.some.inj hr
  subst hr
  simp only [ShopCluesScraper.parseReviewItem] at hs
  replace hs := Option.some.inj hs
  subst hs
  refine ⟨ ⟨ rfl, ?_, ?_, ?_, ?_ ⟩, ⟨ rfl, ?_, ?_, ?_, ?_, ?_ ⟩, ?_ ⟩
  · intro h; simp [ImdbScraper.ratingValue, h, List.lookup]
  · intro h; simp [ImdbScraper.ratingValue, h, List.lookup]
  · intro h; simp [ImdbScraper.titleValue, h, List.lookup]
  · intro h
    refine ⟨ ?_, ?_, ?_ ⟩ <;>
      simp [ImdbScraper.reviewerValue, ImdbScraper.dateValue, ImdbScraper.textValue,
        ImdbScraper.permalinkOf, h, List.lookup]
  · intro h; simp [ShopCluesScraper.shopRating, h, List.lookup]
  · intro h
    simp [ShopCluesScraper.shopReviewer, h, List.lookup]
    rfl
  · intro h; simp [ShopCluesScraper.shopDate, h, List.lookup]
  · intro h; simp [ShopCluesScraper.shopVerified, h, List.lookup]
  · intro h
    simp [ShopCluesScraper.shopContent, h, List.lookup]
    rfl
  · intro rec hrec
    rw [ShopCluesScraper.parse_reviews] at hrec
    obtain ⟨ f, _, hf ⟩ := List.mem_filterMap.mp hrec
    cases f with
    | malformed => simp [ShopCluesScraper.parseReviewItem] at hf
    | ok d' =>
      simp only [ShopCluesScraper.parseReviewItem] at hf
      replace hf := Option.some.inj hf
      subst hf
      rfl

/-- Closed instance of `c2_sentinel_fields`: on the all-selectors-fail
card and item, the rating field is the "N/A" sentinel and the
ShopClues date field is its empty-string sentinel. -/
theorem c2_sentinel_fields_witness :
    List.lookup "rating" rec0 = some "N/A" ∧ List.lookup "date" srec0 = some "" :=
  ⟨ ((c2_sentinel_fields d0 oracle0 sd0 [] rec0 srec0 rfl rfl).1).2.1 rfl,
    ((c2_sentinel_fields d0 oracle0 sd0 [] rec0 srec0 rfl rfl).2).1.2.2.2.1 rfl ⟩

/-- A fragment that is not malformed always extracts to a record
(ShopClues side). -/
theorem shop_isSome_of_ok (f : ShopCluesScraper.ShopFragment)
    (h : f ≠ ShopCluesScraper.ShopFragment.malformed) :
    (ShopCluesScraper.parseReviewItem f).isSome = true := by
  cases f with
  | malformed => exact absurd rfl h
  | ok d => rfl

/-- A fragment that is not malformed always extracts to a record
(IMDb side). -/
theorem imdb_isSome_of_ok (oracle : String → ImdbScraper.SecondaryFetch)
    (f : ImdbScraper.IMDBFragment) (h : f ≠ ImdbScraper.IMDBFragment.malformed) :
    (ImdbScraper.extract_review oracle f).isSome = true := by
  cases f with
  | malformed => exact absurd rfl h
  | ok d => rfl

/-- C4: a batch with exactly one malformed fragment yields exactly
N-1 records: the malformed fragment is skipped (it contributes no
record and is processed once, never retried) and the records are
exactly those of the fragments before it followed by those after it,
unaffected — in both extractors. -/
theorem c4_isolation
    (pre post : List ShopCluesScraper.ShopFragment)
    (ipre ipost : List ImdbScraper.IMDBFragment)
    (oracle : String → ImdbScraper.SecondaryFetch)
    (h1 : ∀ f ∈ pre, f ≠ ShopCluesScraper.ShopFragment.malformed)
    (h2 : ∀ f ∈ post, f ≠ ShopCluesScraper.ShopFragment.malformed)
    (h3 : ∀ f ∈ ipre, f ≠ ImdbScraper.IMDBFragment.malformed)
    (h4 : ∀ f ∈ ipost, f ≠ ImdbScraper.IMDBFragment.malformed) :
    ShopCluesScraper.parse_reviews (pre ++ ShopCluesScraper.ShopFragment.malformed :: post)
        = ShopCluesScraper.parse_reviews pre ++ ShopCluesScraper.parse_reviews post
    ∧ (ShopCluesScraper.parse_reviews
          (pre ++ ShopCluesScraper.ShopFragment.malformed :: post)).length
        = (pre ++ ShopCluesScraper.ShopFragment.malformed :: post).length - 1
    ∧ (ipre ++ ImdbScraper.IMDBFragment.malformed :: ipost).filterMap
          (ImdbScraper.extract_review oracle)
        = ipre.filterMap (ImdbScraper.extract_review oracle)
          ++ ipost.filterMap (ImdbScraper.extract_review oracle)
    ∧ ((ipre ++ ImdbScraper.IMDBFragment.malformed :: ipost).filterMap
          (ImdbScraper.extract_review oracle)).length
        = (ipre ++ ImdbScraper.IMDBFragment.malformed :: ipost).length - 1 := by
  have e1 : ShopCluesScraper.parse_reviews
      (pre ++ ShopCluesScraper.ShopFragment.malformed :: post)
      = ShopCluesScraper.parse_reviews pre ++ ShopCluesScraper.parse_reviews post := by
    simp [ShopCluesScraper.parse_reviews, List.filterMap_append, List.filterMap_cons,
      ShopCluesScraper.parseReviewItem]
  have e2 : (ipre ++ ImdbScraper.IMDBFragment.malformed :: ipost).filterMap
      (ImdbScraper.extract_review oracle)
      = ipre.filterMap (ImdbScraper.extract_review oracle)
        ++ ipost.filterMap (ImdbScraper.extract_review oracle) := by
    simp [List.filterMap_append, List.filterMap_cons, ImdbScraper.extract_review]
  refine ⟨ e1, ?_, e2, ?_ ⟩
  · rw [e1]
    have l1 := filterMap_length_all_some ShopCluesScraper.parseReviewItem pre
      (fun f hf => shop_isSome_of_ok f (h1 f hf))
    have l2 := filterMap_length_all_some ShopCluesScraper.parseReviewItem post
      (fun f hf => shop_isSome_of_ok f (h2 f hf))
    simp [ShopCluesScraper.parse_reviews, l1, l2]
  · rw [e2]
    have l3 := filterMap_length_all_some (ImdbScraper.extract_review oracle) ipre
      (fun f hf => imdb_isSome_of_ok oracle f (h3 f hf))
    have l4 := filterMap_length_all_some (ImdbScraper.extract_review oracle) ipost
      (fun f hf => imdb_isSome_of_ok oracle f (h4 f hf))
    simp [l3, l4]

/-- Closed instance of `c4_isolation`: a three-fragment ShopClues
batch whose middle fragment is malformed yields exactly two records,
and likewise on the IMDb side. -/
theorem c4_isolation_witness :
    (ShopCluesScraper.parse_reviews
        [ ShopCluesScraper.ShopFragment.ok sd0, ShopCluesScraper.ShopFragment.malformed,
          ShopCluesScraper.ShopFragment.ok sd0 ]).length = 2
    ∧ ((ImdbScraper.IMDBFragment.ok d0 :: ImdbScraper.IMDBFragment.malformed
          :: [ ImdbScraper.IMDBFragment.ok d0 ]).filterMap
        (ImdbScraper.extract_review oracle0)).length = 2 := by
  have h := c4_isolation [ ShopCluesScraper.ShopFragment.ok sd0 ]
    [ ShopCluesScraper.ShopFragment.ok sd0 ]
    [ ImdbScraper.IMDBFragment.ok d0 ] [ ImdbScraper.IMDBFragment.ok d0 ] oracle0
    (by intro f hf; simp at hf; subst hf; simp)
    (by intro f hf; simp at hf; subst hf; simp)
    (by intro f hf; simp at hf; subst hf; simp)
    (by intro f hf; simp at hf; subst hf; simp)
  exact ⟨ h.2.1, h.2.2.2 ⟩

/-- C6: when a review card has a permalink and the secondary
full-text fetch raises (for example, times out), the record is still
produced, its body is the "Error fetching full review" sentinel, and
the other four fields carry exactly the values their selector rules
yield (in particular the reviewer name and date found in the card). -/
theorem c6_secondary_fetch_sentinel
    (d : ImdbScraper.IMDBFragData) (a : ImdbScraper.AuthorData) (p : String)
    (oracle : String → ImdbScraper.SecondaryFetch)
    (h1 : d.author = some a) (h2 : a.permalink = some p)
    (h3 : oracle p = ImdbScraper.SecondaryFetch.err) :
    ImdbScraper.extract_review oracle (ImdbScraper.IMDBFragment.ok d) =
      some [ ("rating", ImdbScraper.ratingValue d), ("title", ImdbScraper.titleValue d),
             ("reviewer", ImdbScraper.reviewerValue d), ("date", ImdbScraper.dateValue d),
             ("text", "Error fetching full review") ]
    ∧ (∀ nm, a.authorLink = some nm → ImdbScraper.reviewerValue d = nm)
    ∧ (∀ dt, a.reviewDate = some dt → ImdbScraper.dateValue d = dt) := by
  refine ⟨ ?_, ?_, ?_ ⟩
  · simp [ImdbScraper.extract_review, ImdbScraper.textValue, ImdbScraper.permalinkOf,
      h1, h2, h3]
  · intro nm h; simp [ImdbScraper.reviewerValue, h1, h]
  · intro dt h; simp [ImdbScraper.dateValue, h1, h]

/-- Closed instance of `c6_secondary_fetch_sentinel`: on the
permalink-only card with an always-raising oracle, every other field
falls back to its sentinel and the body is the fetch-failure
sentinel. -/
theorem c6_secondary_fetch_sentinel_witness :
    ImdbScraper.extract_review oracle0 (ImdbScraper.IMDBFragment.ok dPerm) =
      some [ ("rating", "N/A"), ("title", "No Title"), ("reviewer", "Anonymous"),
             ("date", "Unknown date"), ("text", "Error fetching full review") ] :=
  (c6_secondary_fetch_sentinel dPerm ⟨ none, none, some "/review/rw1/" ⟩ "/review/rw1/"
    oracle0 rfl rfl rfl).1

/-- C8 counterexample: record extraction on the IMDb side is not a
function of the fragment alone.  On the very same fragment, two runs
whose secondary per-record fetches end differently (one returns a
review text, one raises) produce different records — so re-running
extraction on an identical fragment need not yield a bit-identical
record, contrary to the claim. -/
theorem c8_not_fragment_determined :
    ImdbScraper.extract_review oracleText (ImdbScraper.IMDBFragment.ok dPerm)
      ≠ ImdbScraper.extract_review oracle0 (ImdbScraper.IMDBFragment.ok dPerm) := by
  decide

/-- C8 (amended): extraction is deterministic in all of its inputs —
identical fragment and identical secondary-fetch outcomes yield
bit-identical records on the token-based side, and the counter-based
extractor is a pure function of the fragment batch alone. -/
theorem c8_determinism
    (f g : ImdbScraper.IMDBFragment) (o o' : String → ImdbScraper.SecondaryFetch)
    (x y : List ShopCluesScraper.ShopFragment)
    (hf : f = g) (ho : o = o') (hx : x = y) :
    ImdbScraper.extract_review o f = ImdbScraper.extract_review o' g
    ∧ ShopCluesScraper.parse_reviews x = ShopCluesScraper.parse_reviews y := by
  subst hf; subst ho; subst hx
  exact ⟨ rfl, rfl ⟩

/-- Closed instance of `c8_determinism`. -/
theorem c8_determinism_witness :
    ImdbScraper.extract_review oracle0 (ImdbScraper.IMDBFragment.ok d0)
      = ImdbScraper.extract_review oracle0 (ImdbScraper.IMDBFragment.ok d0)
    ∧ ShopCluesScraper.parse_reviews [ ShopCluesScraper.ShopFragment.ok sd0 ]
      = ShopCluesScraper.parse_reviews [ ShopCluesScraper.ShopFragment.ok sd0 ] :=
  c8_determinism (ImdbScraper.IMDBFragment.ok d0) (ImdbScraper.IMDBFragment.ok d0)
    oracle0 oracle0 [ ShopCluesScraper.ShopFragment.ok sd0 ]
    [ ShopCluesScraper.ShopFragment.ok sd0 ] rfl rfl rfl

/-- C9 counterexample: on an unparseable subject identifier the CLI
does NOT exit non-zero.  `main` catches the `ValueError` raised by
`get_movie_id`, prints the error message, and returns normally, so
the process exit code is 0 — the claim's "non-zero code exactly when
the subject identifier fails pre-flight validation" is false. -/
theorem c9_counterexample :
    (∃ e, ImdbScraper.get_movie_id "not-a-valid-id" = Except.error e)
    ∧ (ImdbScraper.main siteEmpty "not-a-valid-id" 5).1 = 0
    ∧ (ImdbScraper.main siteEmpty "not-a-valid-id" 5).2
        = ImdbScraper.CliOutcome.errorMessage := by
  exact ⟨ ⟨ "Invalid IMDb URL or ID. Please provide a valid IMDb movie URL or ID.", rfl ⟩,
    rfl, rfl ⟩

/-- C9 (amended): the CLI exits with code 0 on every path; it prints
the caught-error message exactly when `scrape_reviews` propagates an
exception to `main` — which happens when the subject identifier fails
pre-flight validation, and also when the uncaught title-page fetch
raises — in particular a failed validation always yields the error
message (not a non-zero exit); and on a completed crawl it prints the
success summary when at least one record was collected and the
"no records" notice when zero were. -/
theorem c9_exit_codes (site : ImdbScraper.IMDBSite) (input : String) (maxPages : Nat) :
    (ImdbScraper.main site input maxPages).1 = 0
    ∧ ((ImdbScraper.main site input maxPages).2 = ImdbScraper.CliOutcome.errorMessage
        ↔ ∃ e, ImdbScraper.scrape_reviews site input maxPages = Except.error e)
    ∧ ((∃ e, ImdbScraper.get_movie_id input = Except.error e) →
        (ImdbScraper.main site input maxPages).2 = ImdbScraper.CliOutcome.errorMessage)
    ∧ (∀ out t, ImdbScraper.scrape_reviews site input maxPages = Except.ok (out, t) →
        (ImdbScraper.main site input maxPages).2 =
          (if out.records = [] then ImdbScraper.CliOutcome.noRecords
           else ImdbScraper.CliOutcome.successSummary out.records.length)) := by
  cases hs : ImdbScraper.scrape_reviews site input maxPages with
  | error e =>
    refine ⟨ ?_, ?_, ?_, ?_ ⟩
    · simp [ImdbScraper.main, hs]
    · constructor
      · intro _
        exact ⟨ e, rfl ⟩
      · intro _
        simp [ImdbScraper.main, hs]
    · intro _
      simp [ImdbScraper.main, hs]
    · intro out t heq
      exact absurd heq (by simp)
  | ok pr =>
    obtain ⟨ out0, t0 ⟩ := pr
    have hm2 : ImdbScraper.main site input maxPages
        = (if out0.records = [] then (0, ImdbScraper.CliOutcome.noRecords)
           else (0, ImdbScraper.CliOutcome.successSummary out0.records.length)) := by
      simp [ImdbScraper.main, hs]
    refine ⟨ ?_, ?_, ?_, ?_ ⟩
    · rw [hm2]
      split <;> rfl
    · constructor
      · intro h
        rw [hm2] at h
        split at h <;> simp at h
      · intro h
        obtain ⟨ e, he ⟩ := h
        exact absurd he (by simp)
    · intro h
      obtain ⟨ e, he ⟩ := h
      have hserr : ImdbScraper.scrape_reviews site input maxPages = Except.error e := by
        simp [ImdbScraper.scrape_reviews, he]
      rw [hserr] at hs
      exact absurd hs (by simp)
    · intro out t heq
      replace heq := Except.ok.inj heq
      obtain ⟨ hout, ht ⟩ := Prod.mk.inj heq
      subst hout
      rw [hm2]
      split <;> rfl

/-- Closed instance of `c9_exit_codes`: a crawl that collects nothing
exits 0 with the no-records notice, and an invalid subject identifier
exits 0 with the error message. -/
theorem c9_exit_codes_witness :
    (ImdbScraper.main siteEmpty "tt1" 5).1 = 0
    ∧ (ImdbScraper.main siteEmpty "tt1" 5).2 = ImdbScraper.CliOutcome.noRecords
    ∧ (ImdbScraper.main siteEmpty "zz" 5).2 = ImdbScraper.CliOutcome.errorMessage := by
  refine ⟨ (c9_exit_codes siteEmpty "tt1" 5).1, ?_, ?_ ⟩
  · have h := (c9_exit_codes siteEmpty "tt1" 5).2.2.2
      ⟨ [], 1, ImdbScraper.StopReason.netErr ⟩ "tt1" rfl
    simpa using h
  · exact (c9_exit_codes siteEmpty "zz" 5).2.2.1
      ⟨ "Invalid IMDb URL or ID. Please provide a valid IMDb movie URL or ID.", rfl ⟩

/-- C7: in the counter-based AJAX protocol, one iteration of the loop
transitions to the terminal state exactly when the received response
satisfies the spec's exhaustion condition (non-success status, empty
or missing HTML payload, or empty extracted batch); in every other
case the loop continues with the next counter value, extending the
accumulator with the page's records. -/
theorem c7_exhaustion_iff
    (stream : Nat → Option ShopCluesScraper.AjaxResponse)
    (fuel page : Nat) (acc : List Record) (reqs : List Nat)
    (r : ShopCluesScraper.AjaxResponse)
    (h : stream (page + 1) = some r) :
    (ShopCluesScraper.specExhaustion r = true →
      ShopCluesScraper.fetchAllGo stream (fuel + 1) page acc reqs
        = ⟨ acc, reqs ++ [page + 1], true ⟩)
    ∧ (ShopCluesScraper.specExhaustion r = false →
      ∃ doc, r.html = some doc ∧ r.status = 200
        ∧ ShopCluesScraper.parse_reviews doc ≠ []
        ∧ ShopCluesScraper.fetchAllGo stream (fuel + 1) page acc reqs
          = ShopCluesScraper.fetchAllGo stream fuel (page + 1)
              (acc ++ ShopCluesScraper.parse_reviews doc) (reqs ++ [page + 1])) := by
  obtain ⟨ st, html ⟩ := r
  by_cases hst : st = 200
  · subst hst
    cases html with
    | none =>
      constructor
      · intro _
        simp [ShopCluesScraper.fetchAllGo, h]
      · intro hex
        simp [ShopCluesScraper.specExhaustion] at hex
    | some doc =>
      by_cases hp : ShopCluesScraper.parse_reviews doc = []
      · constructor
        · intro _
          simp [ShopCluesScraper.fetchAllGo, h, hp]
        · intro hex
          simp [ShopCluesScraper.specExhaustion, hp] at hex
      · constructor
        · intro hex
          simp [ShopCluesScraper.specExhaustion, hp] at hex
        · intro _
          exact ⟨ doc, rfl, rfl, hp, by simp [ShopCluesScraper.fetchAllGo, h, hp] ⟩
  · constructor
    · intro _
      simp only [ShopCluesScraper.fetchAllGo, h]
      rw [if_pos hst]
    · intro hex
      simp [ShopCluesScraper.specExhaustion, hst] at hex

/-- Closed instance of `c7_exhaustion_iff`: a good response continues
the loop, as witnessed on the all-good stream. -/
theorem c7_exhaustion_iff_witness :
    ShopCluesScraper.fetchAllGo allGoodStream 1 1 [] []
      = ShopCluesScraper.fetchAllGo allGoodStream 0 2 ([] ++ [ srec0 ]) ([] ++ [2]) := by
  have h := (c7_exhaustion_iff allGoodStream 0 1 [] [] goodResp rfl).2 (by decide)
  obtain ⟨ doc, hdoc, _, _, heq ⟩ := h
  have hdoc2 : doc = [ ShopCluesScraper.ShopFragment.ok sd0 ] := Option.some.inj hdoc.symm
  subst hdoc2
  exact heq

/-- `get_movie_title` cannot raise once a response was received: on
every received title page it returns some title string (the cleaned
element text, or the movie id fallback). -/
theorem get_movie_title_page_ok (movie_id : String) (status : Nat) (elem : Option String) :
    ∃ t, ImdbScraper.get_movie_title movie_id (ImdbScraper.TitleFetch.page status elem)
      = Except.ok t := by
  simp only [ImdbScraper.get_movie_title]
  by_cases hs : status = 200
  · rw [if_pos hs]
    cases elem with
    | some t => exact ⟨ t, rfl ⟩
    | none => exact ⟨ movie_id, rfl ⟩
  · rw [if_neg hs]
    exact ⟨ movie_id, rfl ⟩

/-- C3: a page-level fetch failure inside the crawl loop is a soft
stop in both loops.  On the IMDb side, whether the failing fetch is
the first reviews page or any continuation page, the loop returns
exactly the records already accumulated, with the network-error stop
reason, instead of raising; on the ShopClues side a raised AJAX
request likewise terminates the loop with the accumulated records.
`scrape_reviews` itself returns a value whenever the subject
identifier resolves and the pre-loop title-page fetch does not raise;
when that uncaught title fetch raises (imdb_scraper.py line 30), the
exception does propagate out of `scrape_reviews` — that pre-loop
fetch is not one of the loop's page-level fetches. -/
theorem c3_soft_stop :
    (∀ (site : ImdbScraper.IMDBSite) (fuel : Nat) (acc : List Record),
       site.first = none →
       ImdbScraper.scrapeGo site (fuel + 1) 0 none acc
         = ⟨ acc, 1, ImdbScraper.StopReason.netErr ⟩)
    ∧ (∀ (site : ImdbScraper.IMDBSite) (fuel n : Nat) (k : String) (acc : List Record),
       n ≠ 0 → k ≠ "" → site.next k = none →
       ImdbScraper.scrapeGo site (fuel + 1) n (some k) acc
         = ⟨ acc, n + 1, ImdbScraper.StopReason.netErr ⟩)
    ∧ (∀ (stream : Nat → Option ShopCluesScraper.AjaxResponse) (fuel page : Nat)
         (acc : List Record) (reqs : List Nat),
       stream (page + 1) = none →
       ShopCluesScraper.fetchAllGo stream (fuel + 1) page acc reqs
         = ⟨ acc, reqs ++ [page + 1], true ⟩)
    ∧ (∀ (site : ImdbScraper.IMDBSite) (input : String) (maxPages : Nat) (m : String),
       ImdbScraper.get_movie_id input = Except.ok m →
       site.titleFetch ≠ ImdbScraper.TitleFetch.err →
       ∃ out t, ImdbScraper.scrape_reviews site input maxPages = Except.ok (out, t))
    ∧ (∀ (site : ImdbScraper.IMDBSite) (input : String) (maxPages : Nat) (m : String),
       ImdbScraper.get_movie_id input = Except.ok m →
       site.titleFetch = ImdbScraper.TitleFetch.err →
       ∃ e, ImdbScraper.scrape_reviews site input maxPages = Except.error e) := by
  refine ⟨ ?_, ?_, ?_, ?_, ?_ ⟩
  · intro site fuel acc h
    simp [ImdbScraper.scrapeGo, h]
  · intro site fuel n k acc hn hk h
    simp [ImdbScraper.scrapeGo, hn, ImdbScraper.keyTruthy, hk, h]
  · intro stream fuel page acc reqs h
    simp [ShopCluesScraper.fetchAllGo, h]
  · intro site input maxPages m hm htf
    cases htfv : site.titleFetch with
    | err => exact absurd htfv htf
    | page status elem =>
      obtain ⟨ ttl, hgt ⟩ := get_movie_title_page_ok m status elem
      exact ⟨ ImdbScraper.scrapeGo site maxPages 0 none [], ttl,
        by simp [ImdbScraper.scrape_reviews, hm, htfv, hgt] ⟩
  · intro site input maxPages m hm htf
    exact ⟨ "RequestException in get_movie_title",
      by simp [ImdbScraper.scrape_reviews, hm, htf, ImdbScraper.get_movie_title] ⟩

/-- Closed instance of `c3_soft_stop`: with records already collected,
a failing continuation fetch returns them instead of discarding; the
wrapper returns a value when the title fetch succeeded and raises
when it did not. -/
theorem c3_soft_stop_witness :
    ImdbScraper.scrapeGo siteEmpty 3 1 (some "k1") [ rec0 ]
      = ⟨ [ rec0 ], 2, ImdbScraper.StopReason.netErr ⟩
    ∧ ShopCluesScraper.fetchAllGo errStream 2 1 [ srec0 ] [2]
      = ⟨ [ srec0 ], [2] ++ [2], true ⟩
    ∧ (∃ out t, ImdbScraper.scrape_reviews siteEmpty "tt1" 5 = Except.ok (out, t))
    ∧ (∃ e, ImdbScraper.scrape_reviews siteTitleRaise "tt1" 5 = Except.error e) := by
  refine ⟨ ?_, ?_, ?_, ?_ ⟩
  · exact c3_soft_stop.2.1 siteEmpty 2 1 "k1" [ rec0 ] (by decide) (by decide) rfl
  · exact c3_soft_stop.2.2.1 errStream 1 1 [ srec0 ] [2] rfl
  · exact c3_soft_stop.2.2.2.1 siteEmpty "tt1" 5 "tt1" rfl (by decide)
  · exact c3_soft_stop.2.2.2.2 siteTitleRaise "tt1" 5 "tt1" rfl rfl

/-- Budget invariant of the IMDb crawl loop: starting from
`pages_scraped = n` with `fuel` budget left, the loop never counts
past `n + fuel` pages, and it reports the budget stop reason only
when it has counted exactly `n + fuel` pages. -/
theorem scrapeGo_budget_invariant (site : ImdbScraper.IMDBSite) :
    ∀ (fuel n : Nat) (key : Option String) (acc : List Record),
      (ImdbScraper.scrapeGo site fuel n key acc).pages ≤ n + fuel
      ∧ ((ImdbScraper.scrapeGo site fuel n key acc).reason = ImdbScraper.StopReason.budget →
          (ImdbScraper.scrapeGo site fuel n key acc).pages = n + fuel) := by
  intro fuel
  induction fuel with
  | zero =>
    intro n key acc
    exact ⟨ Nat.le_refl _, fun _ => rfl ⟩
  | succ f ih =>
    intro n key acc
    simp only [ImdbScraper.scrapeGo]
    split
    · dsimp only
      exact ⟨ by omega, fun h => absurd h (by decide) ⟩
    · dsimp only
      exact ⟨ by omega, fun h => absurd h (by decide) ⟩
    · split
      · dsimp only
        exact ⟨ by omega, fun h => absurd h (by decide) ⟩
      · split
        · dsimp only
          exact ⟨ by omega, fun h => absurd h (by decide) ⟩
        · exact ⟨ (ih (n + 1) _ _).1.trans_eq (by omega),
            fun h => ((ih (n + 1) _ _).2 h).trans (by omega : (n + 1) + f = n + (f + 1)) ⟩

/-- On a stream whose every response is good, the counter-based
`while True` loop never reaches a break: within any number of
unrolling steps it is still running. -/
theorem fetchAllGo_unbounded (stream : Nat → Option ShopCluesScraper.AjaxResponse)
    (hg : ∀ m, ShopCluesScraper.GoodAjax (stream m)) :
    ∀ (fuel page : Nat) (acc : List Record) (reqs : List Nat),
      (ShopCluesScraper.fetchAllGo stream fuel page acc reqs).finished = false := by
  intro fuel
  induction fuel with
  | zero => intro page acc reqs; rfl
  | succ f ih =>
    intro page acc reqs
    obtain ⟨ r, hr, hst, doc, hdoc, hne ⟩ := hg (page + 1)
    simp only [ShopCluesScraper.fetchAllGo, hr]
    rw [if_neg (by simp [hst])]
    simp only [hdoc]
    rw [if_neg hne]
    exact ih (page + 1) _ _

/-- C1 counterexample: the counter-based AJAX loop of
`fetch_all_reviews` is not bounded by any page budget.  On a site
whose AJAX endpoint always returns a good page, after 10 unrolling
steps the loop has already issued 10 continuation requests — with the
initial page, 11 pages visited, more than the claimed `max_pages`
bound (the CLI page cap defaults to 5) — and it is still running. -/
theorem c1_counterexample :
    (ShopCluesScraper.fetch_all_reviews shopSiteAllGood 10).reqs.length = 10
    ∧ (ShopCluesScraper.fetch_all_reviews shopSiteAllGood 10).finished = false
    ∧ ¬ (1 + 10 ≤ 5) := by
  decide

/-- C1 (amended): the token-based loop of `scrape_reviews` visits at
most `max_pages` pages, and it stops before reaching `max_pages`
exactly when something other than the page budget stopped it — a
network error, an empty container batch, or a missing (falsy)
continuation key; whereas the counter-based loop of
`fetch_all_reviews` has no page budget at all: on a stream of
uniformly good responses it never terminates, no matter how far it
is unrolled. -/
theorem c1_budget_and_exhaustion
    (site : ImdbScraper.IMDBSite) (input : String) (maxPages : Nat)
    (out : ImdbScraper.ScrapeOut) (t : String)
    (h : ImdbScraper.scrape_reviews site input maxPages = Except.ok (out, t))
    (stream : Nat → Option ShopCluesScraper.AjaxResponse)
    (hg : ∀ m, ShopCluesScraper.GoodAjax (stream m)) :
    (out.pages ≤ maxPages
      ∧ (out.reason = ImdbScraper.StopReason.budget → out.pages = maxPages)
      ∧ (out.pages < maxPages → out.reason ≠ ImdbScraper.StopReason.budget))
    ∧ (∀ (fuel page : Nat) (acc : List Record) (reqs : List Nat),
        (ShopCluesScraper.fetchAllGo stream fuel page acc reqs).finished = false) := by
  have hout : out = ImdbScraper.scrapeGo site maxPages 0 none [] := by
    cases hm : ImdbScraper.get_movie_id input with
    | error e => simp [ImdbScraper.scrape_reviews, hm] at h
    | ok mid =>
      cases ht : ImdbScraper.get_movie_title mid site.titleFetch with
      | error e => simp [ImdbScraper.scrape_reviews, hm, ht] at h
      | ok ttl =>
        simp only [ImdbScraper.scrape_reviews, hm, ht] at h
        exact ((Prod.mk.inj (Except.ok.inj h)).1).symm
  subst hout
  obtain ⟨ hle, hbud ⟩ := scrapeGo_budget_invariant site maxPages 0 none []
  refine ⟨ ⟨ by simpa using hle, by simpa using hbud, ?_ ⟩, fetchAllGo_unbounded stream hg ⟩
  intro hlt hb
  have := hbud hb
  omega

/-- Closed instance of `c1_budget_and_exhaustion`: a one-page crawl
under a budget of 5 stopped for a non-budget reason, and the all-good
AJAX stream keeps the counter loop running after 3 steps. -/
theorem c1_budget_and_exhaustion_witness :
    (ImdbScraper.scrapeGo siteEmpty 5 0 none []).pages ≤ 5
    ∧ (ImdbScraper.scrapeGo siteEmpty 5 0 none []).reason ≠ ImdbScraper.StopReason.budget
    ∧ (ShopCluesScraper.fetchAllGo allGoodStream 3 1 [] []).finished = false := by
  have h := c1_budget_and_exhaustion siteEmpty "tt1" 5
    (ImdbScraper.scrapeGo siteEmpty 5 0 none []) "tt1" rfl allGoodStream
    (fun m => ⟨ goodResp, rfl, rfl, [ ShopCluesScraper.ShopFragment.ok sd0 ], rfl,
      by decide ⟩)
  exact ⟨ h.1.1, h.1.2.2 (by decide), h.2 3 1 [] [] ⟩

/-- Consecutive counter values: `range'` increments by exactly 1. -/
theorem chain'_succ_range' : ∀ (k s : Nat),
    List.Chain' (fun a b => b = a + 1) (List.range' s k) := by
  intro k
  induction k with
  | zero => intro s; simp
  | succ k ih =>
    intro s
    rw [List.range'_succ]
    cases k with
    | zero => simp
    | succ k2 =>
      have h := ih (s + 1)
      rw [List.range'_succ] at h
      rw [List.range'_succ]
      exact List.Chain'.cons rfl h

/-- Shape invariant of the counter-based loop: starting at counter
`page` with requests `reqs` already issued and records `acc` already
collected, the loop only appends — the issued counters extend `reqs`
by the consecutive block starting at `page + 1`, and the records
extend `acc`. -/
theorem fetchAllGo_shape (stream : Nat → Option ShopCluesScraper.AjaxResponse) :
    ∀ (fuel page : Nat) (acc : List Record) (reqs : List Nat),
      ∃ k tail,
        (ShopCluesScraper.fetchAllGo stream fuel page acc reqs).reqs
          = reqs ++ List.range' (page + 1) k
        ∧ (ShopCluesScraper.fetchAllGo stream fuel page acc reqs).records = acc ++ tail := by
  intro fuel
  induction fuel with
  | zero =>
    intro page acc reqs
    exact ⟨ 0, [], by simp [ShopCluesScraper.fetchAllGo], by simp [ShopCluesScraper.fetchAllGo] ⟩
  | succ f ih =>
    intro page acc reqs
    cases hs : stream (page + 1) with
    | none =>
      refine ⟨ 1, [], ?_, ?_ ⟩ <;> simp [ShopCluesScraper.fetchAllGo, hs]
    | some r =>
      by_cases hst : r.status = 200
      · cases hh : r.html with
        | none =>
          refine ⟨ 1, [], ?_, ?_ ⟩ <;> simp [ShopCluesScraper.fetchAllGo, hs, hst, hh]
        | some doc =>
          by_cases hp : ShopCluesScraper.parse_reviews doc = []
          · refine ⟨ 1, [], ?_, ?_ ⟩ <;> simp [ShopCluesScraper.fetchAllGo, hs, hst, hh, hp]
          · obtain ⟨ k, tail, h1, h2 ⟩ :=
              ih (page + 1) (acc ++ ShopCluesScraper.parse_reviews doc) (reqs ++ [page + 1])
            refine ⟨ k + 1, ShopCluesScraper.parse_reviews doc ++ tail, ?_, ?_ ⟩
            · have he : ShopCluesScraper.fetchAllGo stream (f + 1) page acc reqs
                  = ShopCluesScraper.fetchAllGo stream f (page + 1)
                    (acc ++ ShopCluesScraper.parse_reviews doc) (reqs ++ [page + 1]) := by
                simp [ShopCluesScraper.fetchAllGo, hs, hst, hh, hp]
              rw [he, h1, List.range'_succ, List.append_assoc]
              rfl
            · have he : ShopCluesScraper.fetchAllGo stream (f + 1) page acc reqs
                  = ShopCluesScraper.fetchAllGo stream f (page + 1)
                    (acc ++ ShopCluesScraper.parse_reviews doc) (reqs ++ [page + 1]) := by
                simp [ShopCluesScraper.fetchAllGo, hs, hst, hh, hp]
              rw [he, h2, List.append_assoc]
      · refine ⟨ 1, [], ?_, ?_ ⟩ <;>
          (simp only [ShopCluesScraper.fetchAllGo, hs]; rw [if_pos hst]; simp)

/-- C10: in the counter-based protocol the first AJAX continuation
request always carries counter 2, each subsequent request increments
the counter by exactly 1, no counter value is requested twice within
one crawl (counter 1 in particular is never requested), and the
records of page 1 are exactly the ones parsed from the initially
fetched HTML page, which form a prefix of the final result. -/
theorem c10_counter_protocol
    (site : ShopCluesScraper.ShopSite) (fuel : Nat) (doc : ShopCluesScraper.ShopDoc)
    (hu : site.hasUrl = true) (hd : site.firstFetch = some doc) :
    (ShopCluesScraper.fetch_all_reviews site fuel).reqs
        = List.range' 2 (ShopCluesScraper.fetch_all_reviews site fuel).reqs.length
    ∧ (∀ x ∈ (ShopCluesScraper.fetch_all_reviews site fuel).reqs.head?, x = 2)
    ∧ List.Chain' (fun a b => b = a + 1) (ShopCluesScraper.fetch_all_reviews site fuel).reqs
    ∧ (ShopCluesScraper.fetch_all_reviews site fuel).reqs.Nodup
    ∧ 1 ∉ (ShopCluesScraper.fetch_all_reviews site fuel).reqs
    ∧ (∃ tail, (ShopCluesScraper.fetch_all_reviews site fuel).records
        = ShopCluesScraper.parse_reviews doc.items ++ tail) := by
  have hshape : ∃ k tail,
      (ShopCluesScraper.fetch_all_reviews site fuel).reqs = List.range' 2 k
      ∧ (ShopCluesScraper.fetch_all_reviews site fuel).records
        = ShopCluesScraper.parse_reviews doc.items ++ tail := by
    rw [ShopCluesScraper.fetch_all_reviews, if_pos hu, hd]
    dsimp only
    by_cases hl : doc.loadMore = true
    · rw [if_pos hl]
      cases hpid : site.productId with
      | none => exact ⟨ 0, [], by simp, by simp ⟩
      | some pid =>
        obtain ⟨ k, tail, h1, h2 ⟩ :=
          fetchAllGo_shape site.ajax fuel 1 (ShopCluesScraper.parse_reviews doc.items) []
        exact ⟨ k, tail, by simpa using h1, by simpa using h2 ⟩
    · rw [if_neg hl]
      exact ⟨ 0, [], by simp, by simp ⟩
  obtain ⟨ k, tail, h1, h2 ⟩ := hshape
  have hlen : (ShopCluesScraper.fetch_all_reviews site fuel).reqs.length = k := by
    rw [h1, List.length_range']
  refine ⟨ ?_, ?_, ?_, ?_, ?_, ⟨ tail, h2 ⟩ ⟩
  · rw [hlen, h1]
  · intro x hx
    rw [h1, List.head?_range'] at hx
    by_cases hk : k = 0
    · rw [if_pos hk] at hx; cases hx
    · rw [if_neg hk] at hx
      have h2x : 2 = x := by simpa using hx
      omega
  · rw [h1]; exact chain'_succ_range' k 2
  · rw [h1]; exact List.nodup_range' 2 k
  · rw [h1]
    intro hmem
    have := (List.mem_range'_1.mp hmem).1
    omega

/-- Closed instance of `c10_counter_protocol`: on a site with one
good continuation page and then an empty batch, the requested
counters are exactly `[2, 3]` and the first page's records open the
result. -/
theorem c10_counter_protocol_witness :
    (ShopCluesScraper.fetch_all_reviews shopSiteTwoPages 10).reqs = [2, 3]
    ∧ (∃ tail, (ShopCluesScraper.fetch_all_reviews shopSiteTwoPages 10).records
        = ShopCluesScraper.parse_reviews [ ShopCluesScraper.ShopFragment.ok sd0 ] ++ tail) := by
  have h := c10_counter_protocol shopSiteTwoPages 10
    ⟨ [ ShopCluesScraper.ShopFragment.ok sd0 ], true ⟩ rfl rfl
  refine ⟨ ?_, h.2.2.2.2.2 ⟩
  have h1 := h.1
  have hl : (ShopCluesScraper.fetch_all_reviews shopSiteTwoPages 10).reqs.length = 2 := by
    decide
  rw [hl] at h1
  simpa using h1

/-- A digit block followed by a slash: the greedy digit run of the
concatenation is exactly the block. -/
theorem takeWhile_digits_slash (ds : List Char) (h : ∀ c ∈ ds, c.isDigit = true) :
    ∀ (r : List Char), (ds ++ '/' :: r).takeWhile Char.isDigit = ds := by
  induction ds with
  | nil => intro r; rfl
  | cons c cs ih =>
    intro r
    have hc : Char.isDigit c = true := h c (List.mem_cons_self c cs)
    rw [List.cons_append, List.takeWhile_cons, if_pos hc,
      ih (fun x hx => h x (List.mem_cons_of_mem c hx)) r]

/-- The anchored matcher fails when the first two characters are not
both `t`. -/
theorem ttMatchAt_cons_ne (c1 c2 : Char) (r : List Char) (h : ¬ (c1 = 't' ∧ c2 = 't')) :
    ImdbScraper.ttMatchAt (c1 :: c2 :: r) = none := by
  simp only [ImdbScraper.ttMatchAt]
  rw [if_neg h]

/-- The anchored matcher fails on `tt` not followed by a digit. -/
theorem ttMatchAt_no_digit (r : List Char) (h : r.takeWhile Char.isDigit = []) :
    ImdbScraper.ttMatchAt ('t' :: 't' :: r) = none := by
  simp only [ImdbScraper.ttMatchAt]
  have hc : True ∧ True := ⟨ trivial, trivial ⟩
  rw [if_pos hc, if_pos h]

/-- The anchored matcher on `tt` followed by a digit block and a
slash returns `tt` plus the block. -/
theorem ttMatchAt_digits (ds r : List Char) (h1 : ds ≠ []) (h2 : ∀ c ∈ ds, c.isDigit = true) :
    ImdbScraper.ttMatchAt ('t' :: 't' :: (ds ++ '/' :: r)) = some ('t' :: 't' :: ds) := by
  simp only [ImdbScraper.ttMatchAt]
  have hc : True ∧ True := ⟨ trivial, trivial ⟩
  rw [if_pos hc, takeWhile_digits_slash ds h2 r, if_neg h1]

/-- The search skips a position at which the matcher fails. -/
theorem ttSearch_step (c : Char) (rest : List Char)
    (h : ImdbScraper.ttMatchAt (c :: rest) = none) :
    ImdbScraper.ttSearch (c :: rest) = ImdbScraper.ttSearch rest := by
  simp only [ImdbScraper.ttSearch, h]

/-- The search returns the match found at the current position. -/
theorem ttSearch_cons_match (c : Char) (r m : List Char)
    (h : ImdbScraper.ttMatchAt (c :: r) = some m) :
    ImdbScraper.ttSearch (c :: r) = some m := by
  simp only [ImdbScraper.ttSearch, h]

/-- Every character of a greedy digit run is a digit. -/
theorem takeWhile_mem_digit : ∀ (l : List Char) (c : Char),
    c ∈ l.takeWhile Char.isDigit → c.isDigit = true := by
  intro l
  induction l with
  | nil => intro c hc; simp at hc
  | cons a t ih =>
    intro c hc
    rw [List.takeWhile_cons] at hc
    by_cases ha : Char.isDigit a = true
    · rw [if_pos ha] at hc
      rcases List.mem_cons.mp hc with h | h
      · subst h; exact ha
      · exact ih c h
    · rw [if_neg ha] at hc
      simp at hc

/-- Inversion of a successful anchored match. -/
theorem ttMatchAt_some (l m : List Char) (h : ImdbScraper.ttMatchAt l = some m) :
    ∃ rest, l = 't' :: 't' :: rest ∧ rest.takeWhile Char.isDigit ≠ []
      ∧ m = 't' :: 't' :: rest.takeWhile Char.isDigit := by
  match l with
  | [] => simp [ImdbScraper.ttMatchAt] at h
  | [c] => simp [ImdbScraper.ttMatchAt] at h
  | c1 :: c2 :: rest =>
    simp only [ImdbScraper.ttMatchAt] at h
    by_cases hc : c1 = 't' ∧ c2 = 't'
    · rw [if_pos hc] at h
      by_cases htw : rest.takeWhile Char.isDigit = []
      · rw [if_pos htw] at h; cases h
      · rw [if_neg htw] at h
        obtain ⟨ hc1, hc2 ⟩ := hc
        subst hc1; subst hc2
        exact ⟨ rest, rfl, htw, (Option.some.inj h).symm ⟩
    · rw [if_neg hc] at h; cases h

/-- The anchored matcher succeeds on `tt` followed by a non-empty
digit block. -/
theorem ttMatchAt_of_digits (d q : List Char) (h1 : d ≠ []) (h2 : ∀ c ∈ d, c.isDigit = true) :
    ImdbScraper.ttMatchAt ('t' :: 't' :: (d ++ q)) ≠ none := by
  cases d with
  | nil => exact absurd rfl h1
  | cons c cs =>
    simp only [ImdbScraper.ttMatchAt]
    have ht : True ∧ True := ⟨ trivial, trivial ⟩
    rw [if_pos ht]
    have hc : Char.isDigit c = true := h2 c (List.mem_cons_self c cs)
    rw [List.cons_append, List.takeWhile_cons, if_pos hc]
    simp

/-- A successful regex search implies an occurrence of `tt\d+`. -/
theorem ttSearch_some_occurs : ∀ (l m : List Char),
    ImdbScraper.ttSearch l = some m → ImdbScraper.ttOccurs l := by
  intro l
  induction l with
  | nil => intro m h; simp [ImdbScraper.ttSearch] at h
  | cons c rest ih =>
    intro m h
    cases hm : ImdbScraper.ttMatchAt (c :: rest) with
    | some m2 =>
      obtain ⟨ r2, he, htw, _ ⟩ := ttMatchAt_some (c :: rest) m2 hm
      refine ⟨ [], r2.takeWhile Char.isDigit, r2.dropWhile Char.isDigit, ?_, htw,
        fun x hx => takeWhile_mem_digit r2 x hx ⟩
      rw [List.nil_append, List.takeWhile_append_dropWhile]
      exact he
    | none =>
      rw [ttSearch_step c rest hm] at h
      obtain ⟨ p, d, q, he, hd, hdig ⟩ := ih m h
      exact ⟨ c :: p, d, q, by rw [List.cons_append, ← he], hd, hdig ⟩

/-- A failed regex search implies there is no occurrence of `tt\d+`. -/
theorem ttSearch_none_not_occurs : ∀ (l : List Char),
    ImdbScraper.ttSearch l = none → ¬ ImdbScraper.ttOccurs l := by
  intro l
  induction l with
  | nil =>
    intro _ hocc
    obtain ⟨ p, d, q, he, hd, _ ⟩ := hocc
    cases p <;> simp at he
  | cons c rest ih =>
    intro h hocc
    cases hm : ImdbScraper.ttMatchAt (c :: rest) with
    | some m2 =>
      simp only [ImdbScraper.ttSearch, hm] at h
      exact Option.noConfusion h
    | none =>
      rw [ttSearch_step c rest hm] at h
      obtain ⟨ p, d, q, he, hd, hdig ⟩ := hocc
      cases p with
      | nil =>
        rw [List.nil_append] at he
        rw [he] at hm
        exact ttMatchAt_of_digits d q hd hdig hm
      | cons p0 ptail =>
        rw [List.cons_append] at he
        injection he with hc hrest
        exact ih h ⟨ ptail, d, q, hrest, hd, hdig ⟩

/-- The regex search fails exactly when `tt\d+` occurs nowhere. -/
theorem ttSearch_eq_none_iff (l : List Char) :
    ImdbScraper.ttSearch l = none ↔ ¬ ImdbScraper.ttOccurs l := by
  constructor
  · exact ttSearch_none_not_occurs l
  · intro h
    cases hs : ImdbScraper.ttSearch l with
    | none => rfl
    | some m => exact absurd (ttSearch_some_occurs l m hs) h

/-- The anchored matcher fails on `tt` followed by a non-digit. -/
theorem ttMatchAt_tt_nondigit (c : Char) (r : List Char) (h : Char.isDigit c = false) :
    ImdbScraper.ttMatchAt ('t' :: 't' :: c :: r) = none := by
  apply ttMatchAt_no_digit
  rw [List.takeWhile_cons, if_neg (by rw [h]; exact Bool.noConfusion)]

/-- A movie id that starts with "tt" is returned unchanged. -/
theorem get_movie_id_of_tt (l : List Char) (hb : ImdbScraper.startsWithTT l = true) :
    ImdbScraper.get_movie_id ⟨ l ⟩ = Except.ok ⟨ l ⟩ := by
  simp [ImdbScraper.get_movie_id, ImdbScraper.get_movie_id_chars, hb]

/-- When the input does not start with "tt" and the regex search
succeeds, the match is returned as the canonical id. -/
theorem get_movie_id_of_search (l m : List Char)
    (hb : ImdbScraper.startsWithTT l = false)
    (hs : ImdbScraper.ttSearch l = some m) :
    ImdbScraper.get_movie_id ⟨ l ⟩ = Except.ok ⟨ m ⟩ := by
  simp [ImdbScraper.get_movie_id, ImdbScraper.get_movie_id_chars, hb, hs]

/-- `get_movie_id` raises exactly when the input neither starts with
"tt" nor contains a `tt\d+` occurrence. -/
theorem get_movie_id_error_iff (s : String) :
    (∃ e, ImdbScraper.get_movie_id s = Except.error e) ↔
      (ImdbScraper.startsWithTT s.data = false ∧ ¬ ImdbScraper.ttOccurs s.data) := by
  cases hb : ImdbScraper.startsWithTT s.data with
  | true =>
    constructor
    · rintro ⟨ e, he ⟩
      simp [ImdbScraper.get_movie_id, ImdbScraper.get_movie_id_chars, hb] at he
    · rintro ⟨ hfalse, _ ⟩
      exact Bool.noConfusion hfalse
  | false =>
    cases hsearch : ImdbScraper.ttSearch s.data with
    | some m =>
      constructor
      · rintro ⟨ e, he ⟩
        simp [ImdbScraper.get_movie_id, ImdbScraper.get_movie_id_chars, hb, hsearch] at he
      · rintro ⟨ _, hno ⟩
        exact absurd (ttSearch_some_occurs _ m hsearch) hno
    | none =>
      constructor
      · intro _
        exact ⟨ rfl, ttSearch_none_not_occurs _ hsearch ⟩
      · intro _
        exact ⟨ "Invalid IMDb URL or ID. Please provide a valid IMDb movie URL or ID.",
          by simp [ImdbScraper.get_movie_id, ImdbScraper.get_movie_id_chars, hb, hsearch] ⟩

/-- C5: subject resolution maps a bare identifier of the expected
`tt<digits>` shape and an IMDb title URL embedding that same
identifier to the same canonical identifier, hence to identical fetch
targets; it raises the invalid-subject `ValueError` exactly when
neither pattern matches (the input neither starts with "tt" nor
contains a `tt\d+` occurrence); and on a failing input
`scrape_reviews` fails identically on every site — no network access
is involved in the decision. -/
theorem c5_subject_resolution (ds : List Char) (h1 : ds ≠ [])
    (h2 : ∀ c ∈ ds, c.isDigit = true) (s : String) :
    ImdbScraper.get_movie_id ⟨ 't' :: 't' :: ds ⟩ = Except.ok ⟨ 't' :: 't' :: ds ⟩
    ∧ ImdbScraper.get_movie_id
        ⟨ "https://www.imdb.com/title/".data ++ ('t' :: 't' :: ds) ++ "/".data ⟩
        = Except.ok ⟨ 't' :: 't' :: ds ⟩
    ∧ (∀ m1 m2, ImdbScraper.get_movie_id ⟨ 't' :: 't' :: ds ⟩ = Except.ok m1 →
        ImdbScraper.get_movie_id
          ⟨ "https://www.imdb.com/title/".data ++ ('t' :: 't' :: ds) ++ "/".data ⟩
          = Except.ok m2 →
        ImdbScraper.reviews_url m1 = ImdbScraper.reviews_url m2)
    ∧ ((∃ e, ImdbScraper.get_movie_id s = Except.error e) ↔
        (ImdbScraper.startsWithTT s.data = false ∧ ¬ ImdbScraper.ttOccurs s.data))
    ∧ (∀ e, ImdbScraper.get_movie_id s = Except.error e →
        ∀ (site site' : ImdbScraper.IMDBSite) (maxPages : Nat),
          ImdbScraper.scrape_reviews site s maxPages
            = ImdbScraper.scrape_reviews site' s maxPages) := by
  have hbare : ImdbScraper.get_movie_id ⟨ 't' :: 't' :: ds ⟩
      = Except.ok ⟨ 't' :: 't' :: ds ⟩ := get_movie_id_of_tt _ rfl
  have hsearch : ImdbScraper.ttSearch
      ( "https://www.imdb.com/title/".data ++ ('t' :: 't' :: ds) ++ "/".data )
      = some ('t' :: 't' :: ds) := by
    show ImdbScraper.ttSearch
      ('h' :: 't' :: 't' :: 'p' :: 's' :: ':' :: '/' :: '/' :: 'w' :: 'w' :: 'w' :: '.'
        :: 'i' :: 'm' :: 'd' :: 'b' :: '.' :: 'c' :: 'o' :: 'm' :: '/' :: 't' :: 'i'
        :: 't' :: 'l' :: 'e' :: '/' :: 't' :: 't' :: (ds ++ '/' :: []))
      = some ('t' :: 't' :: ds)
    rw [ttSearch_step 'h' _ (ttMatchAt_cons_ne 'h' 't' _ (by decide))]
    rw [ttSearch_step 't' _ (ttMatchAt_tt_nondigit 'p' _ (by decide))]
    rw [ttSearch_step 't' _ (ttMatchAt_cons_ne 't' 'p' _ (by decide))]
    rw [ttSearch_step 'p' _ (ttMatchAt_cons_ne 'p' 's' _ (by decide))]
    rw [ttSearch_step 's' _ (ttMatchAt_cons_ne 's' ':' _ (by decide))]
    rw [ttSearch_step ':' _ (ttMatchAt_cons_ne ':' '/' _ (by decide))]
    rw [ttSearch_step '/' _ (ttMatchAt_cons_ne '/' '/' _ (by decide))]
    rw [ttSearch_step '/' _ (ttMatchAt_cons_ne '/' 'w' _ (by decide))]
    rw [ttSearch_step 'w' _ (ttMatchAt_cons_ne 'w' 'w' _ (by decide))]
    rw [ttSearch_step 'w' _ (ttMatchAt_cons_ne 'w' 'w' _ (by decide))]
    rw [ttSearch_step 'w' _ (ttMatchAt_cons_ne 'w' '.' _ (by decide))]
    rw [ttSearch_step '.' _ (ttMatchAt_cons_ne '.' 'i' _ (by decide))]
    rw [ttSearch_step 'i' _ (ttMatchAt_cons_ne 'i' 'm' _ (by decide))]
    rw [ttSearch_step 'm' _ (ttMatchAt_cons_ne 'm' 'd' _ (by decide))]
    rw [ttSearch_step 'd' _ (ttMatchAt_cons_ne 'd' 'b' _ (by decide))]
    rw [ttSearch_step 'b' _ (ttMatchAt_cons_ne 'b' '.' _ (by decide))]
    rw [ttSearch_step '.' _ (ttMatchAt_cons_ne '.' 'c' _ (by decide))]
    rw [ttSearch_step 'c' _ (ttMatchAt_cons_ne 'c' 'o' _ (by decide))]
    rw [ttSearch_step 'o' _ (ttMatchAt_cons_ne 'o' 'm' _ (by decide))]
    rw [ttSearch_step 'm' _ (ttMatchAt_cons_ne 'm' '/' _ (by decide))]
    rw [ttSearch_step '/' _ (ttMatchAt_cons_ne '/' 't' _ (by decide))]
    rw [ttSearch_step 't' _ (ttMatchAt_cons_ne 't' 'i' _ (by decide))]
    rw [ttSearch_step 'i' _ (ttMatchAt_cons_ne 'i' 't' _ (by decide))]
    rw [ttSearch_step 't' _ (ttMatchAt_cons_ne 't' 'l' _ (by decide))]
    rw [ttSearch_step 'l' _ (ttMatchAt_cons_ne 'l' 'e' _ (by decide))]
    rw [ttSearch_step 'e' _ (ttMatchAt_cons_ne 'e' '/' _ (by decide))]
    rw [ttSearch_step '/' _ (ttMatchAt_cons_ne '/' 't' _ (by decide))]
    exact ttSearch_cons_match 't' ('t' :: (ds ++ '/' :: []))
      ('t' :: 't' :: ds) (ttMatchAt_digits ds [] h1 h2)
  have hburl : ImdbScraper.startsWithTT
      ( "https://www.imdb.com/title/".data ++ ('t' :: 't' :: ds) ++ "/".data ) = false := rfl
  have hurl := get_movie_id_of_search _ _ hburl hsearch
  refine ⟨ hbare, hurl, ?_, get_movie_id_error_iff s, ?_ ⟩
  · intro m1 m2 e1 e2
    rw [hbare] at e1
    rw [hurl] at e2
    rw [← Except.ok.inj e1, ← Except.ok.inj e2]
  · intro e he site site' maxPages
    simp [ImdbScraper.scrape_reviews, he]

/-- Closed instance of `c5_subject_resolution`: the bare id
"tt0111161" and the URL embedding it resolve identically. -/
theorem c5_subject_resolution_witness :
    ImdbScraper.get_movie_id "tt0111161" = Except.ok "tt0111161"
    ∧ ImdbScraper.get_movie_id "https://www.imdb.com/title/tt0111161/"
        = Except.ok "tt0111161" := by
  have h := c5_subject_resolution [ '0', '1', '1', '1', '1', '6', '1' ]
    (by decide) (by decide) "x"
  exact ⟨ h.1, h.2.1 ⟩
